import Mathlib

/-!
# Formal model of the synthetic London weather/transport dataset generator

This file is a shallow embedding of the day-by-day simulation in
`Generative-dataset-code.py` (the generator variant whose constants the
design document describes: smoothing weights 0.7/0.3, daily noise in
[-2, 2], the `Frosty` condition, and the joint {Heavy Snow, Thunderstorm}
severity bucket).  The older near-duplicate `data_code.py` differs in a few
constants; divergences are noted where they matter.

Randomness is made explicit: `np.random`'s seeded generator is modelled as
a stream `ℕ → ℚ` of samples in `[0,1)`, consumed one draw at a time in the
exact order the Python code issues its calls.  `np.random.uniform(lo, hi)`
becomes `uniformDraw lo hi u` for the next sample `u`; `np.random.rand()`
uses a sample directly.  Python's `round` is modelled by Mathlib's `round`
(they agree except on exact half-way ties, which none of the properties
below depend on).  All numeric state is kept in `ℚ`.
-/

namespace TransportSim

/-- The weather condition labels the generator can emit
(the string constants of the classifier in the source). -/
inductive Condition where
  | Thunderstorm
  | HeavyRain
  | HeavySnow
  | LightRain
  | LightSnow
  | Frosty
  | Clear
  | PartlyCloudy
deriving DecidableEq, Fintype

/-- `np.random.uniform(lo, hi)`: the generator's next sample `u ∈ [0,1)`,
scaled affinely onto `[lo, hi)`. -/
def uniformDraw (lo hi u : ℚ) : ℚ := lo + (hi - lo) * u

/-- Python's `round(x, 1)`: round to one decimal place. -/
def round1 (x : ℚ) : ℚ := ((round (x * 10) : ℤ) : ℚ) / 10

/-- `monthly_avg_temp` (°C): the base monthly average temperature table for
London (source lines 26–29).  Months outside 1..12 never occur (Python
would raise `KeyError`); the catch-all branch returns December's value. -/
def monthly_avg_temp : ℕ → ℚ
  | 1 => 5 | 2 => 6 | 3 => 9 | 4 => 12 | 5 => 16 | 6 => 19
  | 7 => 22 | 8 => 21 | 9 => 18 | 10 => 14 | 11 => 9 | _ => 6

/-- `monthly_avg_precip` (mm): the base monthly average precipitation table
(source lines 32–35); same catch-all convention as `monthly_avg_temp`. -/
def monthly_avg_precip : ℕ → ℚ
  | 1 => 55 | 2 => 40 | 3 => 45 | 4 => 40 | 5 => 45 | 6 => 35
  | 7 => 40 | 8 => 45 | 9 => 50 | 10 => 65 | 11 => 70 | _ => 65

/-- The temperature update (source lines 42–45): add the daily noise to the
previous temperature, blend with the monthly average with weights 0.7/0.3,
and round to one decimal. -/
def nextTemp (prev : ℚ) (m : ℕ) (noise : ℚ) : ℚ :=
  round1 ((prev + noise) * 0.7 + monthly_avg_temp m * 0.3)

/-- The weather-condition classifier (source lines 60–70).  `tie` is the
`np.random.rand()` sample used by the final (low-precipitation) branch; the
branches for `p > 2` do not look at it, mirroring the fact that the Python
code only draws it in the final branch. -/
def classify (p t tie : ℚ) : Condition :=
  if p > 20 then .Thunderstorm
  else if p > 10 then (if t > 0 then .HeavyRain else .HeavySnow)
  else if p > 2 then (if t > 0 then .LightRain else .LightSnow)
  else if t < 3 then (if tie < 0.7 then .Frosty else .Clear)
  else (if tie < 0.7 then .Clear else .PartlyCloudy)

/-- Severity bucket of a condition, most disruptive = 3, least = 0.  This
is the grouping induced by the four arms of the per-mode metric `if`-chain
(source lines 74–89). -/
def sevBucket : Condition → ℕ
  | .HeavySnow => 3
  | .Thunderstorm => 3
  | .LightSnow => 2
  | .HeavyRain => 2
  | .LightRain => 1
  | _ => 0

/-- Delay-minutes `[lo, hi)` endpoints for `np.random.uniform`, by condition
and by `notU = (mode != "Underground")` (source lines 75, 79, 83, 87). -/
def delayRange (c : Condition) (notU : Bool) : ℚ × ℚ :=
  if c = .HeavySnow ∨ c = .Thunderstorm then (if notU then (20, 35) else (10, 20))
  else if c = .LightSnow ∨ c = .HeavyRain then (if notU then (10, 20) else (5, 10))
  else if c = .LightRain then (if notU then (5, 10) else (2, 5))
  else (if notU then (1, 5) else (1, 3))

/-- Cancellation-percent endpoints (source lines 76, 80, 84, 88). -/
def cancelRange (c : Condition) (notU : Bool) : ℚ × ℚ :=
  if c = .HeavySnow ∨ c = .Thunderstorm then (if notU then (8, 15) else (2, 5))
  else if c = .LightSnow ∨ c = .HeavyRain then (if notU then (4, 8) else (1, 3))
  else if c = .LightRain then (if notU then (2, 5) else (0, 2))
  else (if notU then (0, 2) else (0, 1))

/-- Ridership-thousands endpoints (source lines 77, 81, 85, 89). -/
def ridershipRange (c : Condition) (notU : Bool) : ℚ × ℚ :=
  if c = .HeavySnow ∨ c = .Thunderstorm then (if notU then (50, 150) else (150, 200))
  else if c = .LightSnow ∨ c = .HeavyRain then (if notU then (80, 130) else (220, 280))
  else if c = .LightRain then (if notU then (90, 140) else (250, 300))
  else (if notU then (100, 150) else (280, 320))

/-- One delay figure: a uniform draw from the selected range, rounded. -/
def delayFor (c : Condition) (notU : Bool) (u : ℚ) : ℤ :=
  round (uniformDraw (delayRange c notU).1 (delayRange c notU).2 u)

/-- One cancellation figure: a uniform draw from the selected range, rounded. -/
def cancelFor (c : Condition) (notU : Bool) (u : ℚ) : ℤ :=
  round (uniformDraw (cancelRange c notU).1 (cancelRange c notU).2 u)

/-- One ridership figure: a uniform draw from the selected range, rounded. -/
def ridershipFor (c : Condition) (notU : Bool) (u : ℚ) : ℤ :=
  round (uniformDraw (ridershipRange c notU).1 (ridershipRange c notU).2 u)

/-- The three metrics recorded for one transport mode on one day. -/
structure ModeMetrics where
  delay : ℤ
  cancel : ℤ
  ridership : ℤ
deriving DecidableEq

/-- The fixed ordered list of transport modes (source line 20). -/
def modes : List String :=
  ["Underground", "Bus", "Overground", "Tram", "DLR", "National Rail"]

/-- The inner `for mode in modes` loop (source lines 73–93): for each mode,
three consecutive uniform draws give delay, cancellation and ridership.
Returns the metric records in mode order, and the next unused draw index. -/
def modeLoop (stream : ℕ → ℚ) (c : Condition) :
    List String → ℕ → List ModeMetrics × ℕ
  | [], k => ([], k)
  | mode :: rest, k =>
    let notU := mode != "Underground"
    let mm : ModeMetrics :=
      ⟨delayFor c notU (stream k), cancelFor c notU (stream (k + 1)),
        ridershipFor c notU (stream (k + 2))⟩
    let res := modeLoop stream c rest (k + 3)
    (mm :: res.1, res.2)

/-- One output row of the table: the weather fields and, in mode order, the
six mode records. -/
structure Row where
  date : ℕ × ℕ × ℕ
  temperature : ℚ
  precipitation : ℤ
  windSpeed : ℤ
  condition : Condition
  metrics : List ModeMetrics
deriving DecidableEq

/-- One iteration of the day loop (source lines 40–99) on date
`(year, month, day)`: temperature smoothing, precipitation, wind, weather
condition, then the six mode records.  Draws are consumed in source order:
temperature noise; the rain gate; the precipitation amount (only when the
gate fires); wind; the condition tie-break (only in the low-precipitation
branch); then three draws per mode.  Returns the row, the new "previous
temperature", and the next unused draw index. -/
def simDay (stream : ℕ → ℚ) (prev : ℚ) (k : ℕ) (date : ℕ × ℕ × ℕ) :
    Row × ℚ × ℕ :=
  let m := date.2.1
  let temp := nextTemp prev m (uniformDraw (-2) 2 (stream k))
  let avg_precip := monthly_avg_precip m
  let precip_chance : ℚ := if avg_precip > 50 then 0.4 else 0.2
  let precip : ℤ :=
    if stream (k + 1) < precip_chance then
      round (uniformDraw 0 avg_precip (stream (k + 2))) else 0
  let k2 : ℕ := if stream (k + 1) < precip_chance then k + 3 else k + 2
  let wind : ℤ :=
    if m = 11 ∨ m = 12 ∨ m = 1 ∨ m = 2 then round (uniformDraw 15 35 (stream k2))
    else round (uniformDraw 5 25 (stream k2))
  let cond : Condition :=
    if (2 : ℤ) < precip then classify (precip : ℚ) temp 0
    else classify (precip : ℚ) temp (stream (k2 + 1))
  let k3 : ℕ := if (2 : ℤ) < precip then k2 + 1 else k2 + 2
  let res := modeLoop stream cond modes k3
  (⟨date, temp, precip, wind, cond, res.1⟩, temp, res.2)

/-- The day loop over a list of dates, threading the previous-day
temperature (initialised to 10 by the source, line 38) and the draw
index. -/
def buildRows (stream : ℕ → ℚ) :
    List (ℕ × ℕ × ℕ) → ℚ → ℕ → List Row
  | [], _, _ => []
  | d :: ds, prev, k =>
    let res := simDay stream prev k d
    res.1 :: buildRows stream ds res.2.1 res.2.2

/-- Leap year test of the Gregorian calendar (as `datetime` provides). -/
def isLeapYear (y : ℕ) : Bool :=
  y % 4 == 0 && (y % 100 != 0 || y % 400 == 0)

/-- Number of days in a civil month. -/
def daysInMonth (y m : ℕ) : ℕ :=
  if m = 2 then (if isLeapYear y then 29 else 28)
  else if m = 4 ∨ m = 6 ∨ m = 9 ∨ m = 11 then 30
  else 31

/-- Successor of a civil date `(year, month, day)`. -/
def nextDay : ℕ × ℕ × ℕ → ℕ × ℕ × ℕ
  | (y, m, d) =>
    if d < daysInMonth y m then (y, m, d + 1)
    else if m < 12 then (y, m + 1, 1) else (y + 1, 1, 1)

/-- `n + 1` consecutive calendar days starting at `d`. -/
def dateList : ℕ → ℕ × ℕ × ℕ → List (ℕ × ℕ × ℕ)
  | 0, d => [d]
  | n + 1, d => d :: dateList n (nextDay d)

/-- Day number of a Gregorian civil date counted from 1970-01-01 (the
standard days-from-civil formula); used to model the length of the
library-provided date range. -/
def daysFromCivil (y m d : ℕ) : ℕ :=
  let y' := if m ≤ 2 then y - 1 else y
  let era := y' / 400
  let yoe := y' % 400
  let doy := (153 * (if m > 2 then m - 3 else m + 9) + 2) / 5 + d - 1
  let doe := yoe * 365 + yoe / 4 - yoe / 100 + doy
  era * 146097 + doe - 719468

/-- Number of calendar days from `start_date = datetime(2019, 1, 1)` to
`end_date = datetime(2024, 12, 31)` inclusive (source lines 9-10). -/
def numDays : ℕ := daysFromCivil 2024 12 31 - daysFromCivil 2019 1 1 + 1

/-- `pd.date_range(start=start_date, end=end_date)` (source line 11): the
consecutive calendar days from the start date through the end date
inclusive. -/
def dateRange : List (ℕ × ℕ × ℕ) :=
  dateList (numDays - 1) (2019, 1, 1)

/-- The whole simulation (source lines 38-99): one row per date of the
range, previous temperature starting at 10, draws starting at index 0. -/
def generate (stream : ℕ → ℚ) : List Row :=
  buildRows stream dateRange 10 0

/-- The output CSV column names in order (source lines 102-113). -/
def headerColumns : List String :=
  ["Date", "Temperature (°C)", "Precipitation (mm)", "Wind Speed (km/h)",
    "Weather Condition"] ++
    (modes.map (fun mode =>
      [mode ++ " Delays (min)", mode ++ " Cancellations (%)",
        mode ++ " Ridership (thousands)"])).flatten

/-- A date triple with month in 1..12 and day in the month's range. -/
def validDate (t : ℕ × ℕ × ℕ) : Prop :=
  1 ≤ t.2.1 ∧ t.2.1 ≤ 12 ∧ 1 ≤ t.2.2 ∧ t.2.2 ≤ daysInMonth t.1 t.2.1

/-- A strictly monotone encoding of civil dates (for `m ≤ 12`, `d ≤ 31`),
used to state sortedness of the date range. -/
def dateOrd : ℕ × ℕ × ℕ → ℕ
  | (y, m, d) => y * 500 + m * 40 + d

/-! ## Helper lemmas about rounding and uniform draws -/

theorem round_mono {a b : ℚ} (h : a ≤ b) : round a ≤ round b := by
  rw [round_eq, round_eq]
  exact Int.floor_le_floor (by linarith)

theorem round_int_le {i : ℤ} {x : ℚ} (h : (i : ℚ) ≤ x) : i ≤ round x := by
  have := round_mono h
  rwa [round_intCast] at this

theorem round_le_int {j : ℤ} {x : ℚ} (h : x ≤ (j : ℚ)) : round x ≤ j := by
  have := round_mono h
  rwa [round_intCast] at this

theorem uniformDraw_mem {lo hi u : ℚ} (hlh : lo ≤ hi) (h0 : 0 ≤ u) (h1 : u < 1) :
    lo ≤ uniformDraw lo hi u ∧ uniformDraw lo hi u ≤ hi := by
  unfold uniformDraw
  constructor
  · nlinarith
  · nlinarith

theorem round1_err (x : ℚ) : |round1 x - x| ≤ 1 / 20 := by
  have h := abs_sub_round (x * 10)
  rw [abs_le] at h ⊢
  unfold round1
  constructor
  · linarith [h.1]
  · linarith [h.2]

/-! ## Structural lemmas about the day loop -/

theorem buildRows_cons (s : ℕ → ℚ) (d : ℕ × ℕ × ℕ) (ds : List (ℕ × ℕ × ℕ))
    (prev : ℚ) (k : ℕ) :
    buildRows s (d :: ds) prev k =
      (simDay s prev k d).1 ::
        buildRows s ds (simDay s prev k d).2.1 (simDay s prev k d).2.2 := rfl

theorem simDay_condition (s : ℕ → ℚ) (prev : ℚ) (k : ℕ) (d : ℕ × ℕ × ℕ) :
    ∃ tie, (simDay s prev k d).1.condition =
      classify ((simDay s prev k d).1.precipitation : ℚ)
        (simDay s prev k d).1.temperature tie := by
  dsimp only [simDay]
  split_ifs <;> exact ⟨_, rfl⟩

theorem buildRows_condition (s : ℕ → ℚ) (dates : List (ℕ × ℕ × ℕ))
    (prev : ℚ) (k : ℕ) (r : Row) (hr : r ∈ buildRows s dates prev k) :
    ∃ tie, r.condition = classify (r.precipitation : ℚ) r.temperature tie := by
  induction dates generalizing prev k with
  | nil => simp [buildRows] at hr
  | cons d ds ih =>
    rw [buildRows_cons] at hr
    rcases List.mem_cons.mp hr with h | h
    · subst h
      exact simDay_condition s prev k d
    · exact ih _ _ h

/-! ## Claim theorems -/

/-- Claim C1: for every day after the first, the day's temperature equals
the previous day's temperature plus a uniform noise term from `[-2, 2]`,
blended with the month's climatological mean with weights 0.7/0.3 — the
update computed by the source, `round1 ((prev + noise) * 0.7 + avg * 0.3)`,
equals `round1 (prev * 0.7 + avg * 0.3 + noise * 0.7)` exactly. -/
theorem temperature_update_formula (prev : ℚ) (m : ℕ) (noise : ℚ)
    (h1 : -2 ≤ noise) (h2 : noise ≤ 2) :
    nextTemp prev m noise =
      round1 (prev * 0.7 + monthly_avg_temp m * 0.3 + noise * 0.7) := by
  unfold nextTemp
  exact congrArg round1 (by ring)

/-- Witness for C1 at `prev = 10`, `m = 1`, `noise = 0`. -/
theorem temperature_update_formula_witness :
    (-2 : ℚ) ≤ 0 ∧ (0 : ℚ) ≤ 2 ∧
      nextTemp 10 1 0 = round1 (10 * 0.7 + monthly_avg_temp 1 * 0.3 + 0 * 0.7) :=
  ⟨by norm_num, by norm_num,
    temperature_update_formula 10 1 0 (by norm_num) (by norm_num)⟩

/-- Claim C7: with the seed fixed the generator is deterministic — the
output is a pure function of the sample stream the seeded generator
produces, so two runs consuming the same stream yield identical tables. -/
theorem generate_deterministic (s t : ℕ → ℚ) (h : ∀ i, s i = t i) :
    generate s = generate t := by
  have hst : s = t := funext h
  rw [hst]

/-- Witness for C7 at the constant-zero stream. -/
theorem generate_deterministic_witness :
    generate (fun _ => (0 : ℚ)) = generate (fun _ => (0 : ℚ)) :=
  generate_deterministic (fun _ => (0 : ℚ)) (fun _ => (0 : ℚ)) (fun _ => rfl)

/-- Claim C2: metric ranges are selected by severity bucket; the buckets,
most to least disruptive, are exactly {Heavy Snow, Thunderstorm} >
{Light Snow, Heavy Rain} > {Light Rain} > {rest}: conditions in the same
bucket use identical ranges (in particular Thunderstorm and Heavy Snow),
and delay ranges strictly decrease from more to less disruptive buckets. -/
theorem severity_buckets :
    (sevBucket .HeavySnow = 3 ∧ sevBucket .Thunderstorm = 3 ∧
      sevBucket .LightSnow = 2 ∧ sevBucket .HeavyRain = 2 ∧
      sevBucket .LightRain = 1 ∧ sevBucket .Frosty = 0 ∧
      sevBucket .Clear = 0 ∧ sevBucket .PartlyCloudy = 0) ∧
    (∀ (c₁ c₂ : Condition) (b : Bool), sevBucket c₁ = sevBucket c₂ →
      delayRange c₁ b = delayRange c₂ b ∧ cancelRange c₁ b = cancelRange c₂ b ∧
        ridershipRange c₁ b = ridershipRange c₂ b) ∧
    (∀ (c₁ c₂ : Condition) (b : Bool), sevBucket c₂ < sevBucket c₁ →
      (delayRange c₂ b).1 < (delayRange c₁ b).1 ∧
        (delayRange c₂ b).2 < (delayRange c₁ b).2) := by
  refine ⟨⟨rfl, rfl, rfl, rfl, rfl, rfl, rfl, rfl⟩, ?_, ?_⟩ <;>
    · intro c₁ c₂ b h
      cases c₁ <;> cases c₂ <;> cases b <;>
        simp_all [sevBucket, delayRange, cancelRange, ridershipRange] <;> norm_num

/-- Witness for C2: Thunderstorm and Heavy Snow share all ranges. -/
theorem severity_buckets_witness :
    delayRange .Thunderstorm true = delayRange .HeavySnow true ∧
      cancelRange .Thunderstorm true = cancelRange .HeavySnow true ∧
        ridershipRange .Thunderstorm true = ridershipRange .HeavySnow true :=
  severity_buckets.2.1 .Thunderstorm .HeavySnow true rfl

/-- Claim C3: in the final classifier branch (precipitation at or below
the low threshold 2), temperature below 3 gives Frosty when the tie draw
is under 0.7 and Clear otherwise, else Clear when the tie draw is under
0.7 and Partly Cloudy otherwise; and every classification lies in the
fixed eight-value set. -/
theorem classify_final_branch (p t tie : ℚ) :
    (p ≤ 2 →
      classify p t tie =
        if t < 3 then (if tie < 0.7 then .Frosty else .Clear)
        else (if tie < 0.7 then .Clear else .PartlyCloudy)) ∧
    classify p t tie ∈
      [Condition.Thunderstorm, .HeavyRain, .HeavySnow, .LightRain, .LightSnow,
        .Frosty, .Clear, .PartlyCloudy] := by
  constructor
  · intro hp
    unfold classify
    split_ifs <;> first | rfl | linarith
  · unfold classify
    split_ifs <;> simp

/-- Witness for C3 at `p = 0`, `t = 0`, `tie = 0` (Frosty case). -/
theorem classify_final_branch_witness :
    (0 : ℚ) ≤ 2 ∧ classify 0 0 0 = .Frosty := by
  refine ⟨by norm_num, ?_⟩
  have h := (classify_final_branch 0 0 0).1 (by norm_num)
  rw [if_pos (by norm_num : (0 : ℚ) < 3), if_pos (by norm_num : (0 : ℚ) < 0.7)] at h
  exact h

/-- Claim C4: the classifier is monotone in precipitation — with
temperature and the tie draw fixed, a higher precipitation never lands in
a less disruptive severity bucket. -/
theorem classify_monotone (p₁ p₂ t tie : ℚ) (h : p₁ < p₂) :
    sevBucket (classify p₁ t tie) ≤ sevBucket (classify p₂ t tie) := by
  unfold classify
  split_ifs <;> simp [sevBucket] <;> linarith

/-- Witness for C4 at `p₁ = 0`, `p₂ = 25`. -/
theorem classify_monotone_witness :
    (0 : ℚ) < 25 ∧
      sevBucket (classify 0 0 0) ≤ sevBucket (classify 25 0 0) :=
  ⟨by norm_num, classify_monotone 0 25 0 0 (by norm_num)⟩

/-- Claim C9: every generated row's condition is a classification of its
own precipitation and temperature, and a Heavy Snow or Light Snow
classification forces temperature at most 0 °C. -/
theorem snow_implies_freezing :
    (∀ (s : ℕ → ℚ) (r : Row), r ∈ generate s →
      ∃ tie, r.condition = classify (r.precipitation : ℚ) r.temperature tie) ∧
    (∀ p t tie : ℚ,
      classify p t tie = .HeavySnow ∨ classify p t tie = .LightSnow → t ≤ 0) := by
  constructor
  · intro s r hr
    exact buildRows_condition s dateRange 10 0 r hr
  · intro p t tie h
    unfold classify at h
    split_ifs at h <;> rcases h with h | h <;> simp_all <;> linarith

/-- Witness for C9: `classify 15 (-1) 0` is Heavy Snow, and the theorem
yields `-1 ≤ 0`. -/
theorem snow_implies_freezing_witness :
    classify 15 (-1) 0 = .HeavySnow ∧ (-1 : ℚ) ≤ 0 :=
  ⟨by decide, snow_implies_freezing.2 15 (-1) 0 (Or.inl (by decide))⟩

/-- Counterexample to C6 as stated: with the Underground draw at the low
end of its Heavy Snow range (150) and the Bus draw at 0.996 of its range
(149.6, rounding to 150), the Underground ridership does not strictly
exceed the Bus ridership. -/
theorem heavy_snow_ridership_not_strict :
    (0 : ℚ) ≤ 0 ∧ (0 : ℚ) < 1 ∧ (0 : ℚ) ≤ 249 / 250 ∧ (249 / 250 : ℚ) < 1 ∧
      ¬ ridershipFor .HeavySnow false 0 > ridershipFor .HeavySnow true (249 / 250) := by
  refine ⟨le_refl 0, by norm_num, by norm_num, by norm_num, ?_⟩
  have hU : ridershipFor .HeavySnow false 0 = 150 := by
    unfold ridershipFor
    rw [show ridershipRange .HeavySnow false = (150, 200) from rfl]
    rw [show uniformDraw (150, (200 : ℚ)).1 (150, (200 : ℚ)).2 0 = 150 by
      unfold uniformDraw; norm_num]
    rw [round_eq]
    norm_num
  have hB : ridershipFor .HeavySnow true (249 / 250) = 150 := by
    unfold ridershipFor
    rw [show ridershipRange .HeavySnow true = (50, 150) from rfl]
    rw [show uniformDraw (50, (150 : ℚ)).1 (50, (150 : ℚ)).2 (249 / 250) = 748 / 5 by
      unfold uniformDraw; norm_num]
    rw [round_eq]
    norm_num
  rw [hU, hB]
  omega

/-- Claim C6 (amended): on Heavy Snow days the Underground's unrounded
ridership draw strictly exceeds the Bus's, and after rounding the
Underground value is at least the Bus value (equality only when both
round to 150). -/
theorem heavy_snow_ridership_ge (u v : ℚ) (hu0 : 0 ≤ u) (hu1 : u < 1)
    (hv0 : 0 ≤ v) (hv1 : v < 1) :
    uniformDraw 150 200 u > uniformDraw 50 150 v ∧
      ridershipFor .HeavySnow false u ≥ ridershipFor .HeavySnow true v := by
  have h1 : (150 : ℚ) ≤ uniformDraw 150 200 u :=
    (uniformDraw_mem (by norm_num) hu0 hu1).1
  have h2 : uniformDraw 50 150 v ≤ 150 :=
    (uniformDraw_mem (by norm_num) hv0 hv1).2
  constructor
  · unfold uniformDraw at h1 h2 ⊢
    nlinarith
  · unfold ridershipFor
    have g1 : (150 : ℤ) ≤ round (uniformDraw 150 200 u) :=
      round_int_le (by push_cast; linarith)
    have g2 : round (uniformDraw 50 150 v) ≤ (150 : ℤ) :=
      round_le_int (by push_cast; linarith)
    have e1 : ridershipRange .HeavySnow false = (150, 200) := rfl
    have e2 : ridershipRange .HeavySnow true = (50, 150) := rfl
    rw [e1, e2]
    exact le_trans g2 g1

/-- Witness for the amended C6 at `u = v = 0`. -/
theorem heavy_snow_ridership_ge_witness :
    (0 : ℚ) ≤ 0 ∧ (0 : ℚ) < 1 ∧
      (uniformDraw 150 200 0 > uniformDraw 50 150 0 ∧
        ridershipFor .HeavySnow false 0 ≥ ridershipFor .HeavySnow true 0) :=
  ⟨le_refl 0, by norm_num,
    heavy_snow_ridership_ge 0 0 (le_refl 0) (by norm_num) (le_refl 0) (by norm_num)⟩

/-! ## Global metric bounds (claim C10) -/

theorem range_tables_bounded (c : Condition) (b : Bool) :
    ((1 : ℚ) ≤ (delayRange c b).1 ∧ (delayRange c b).1 ≤ (delayRange c b).2 ∧
      (delayRange c b).2 ≤ 35) ∧
    ((0 : ℚ) ≤ (cancelRange c b).1 ∧ (cancelRange c b).1 ≤ (cancelRange c b).2 ∧
      (cancelRange c b).2 ≤ 15) ∧
    ((50 : ℚ) ≤ (ridershipRange c b).1 ∧
      (ridershipRange c b).1 ≤ (ridershipRange c b).2 ∧
      (ridershipRange c b).2 ≤ 320) := by
  revert c b
  decide

theorem delayFor_bounds (c : Condition) (b : Bool) (u : ℚ)
    (h0 : 0 ≤ u) (h1 : u < 1) : 1 ≤ delayFor c b u ∧ delayFor c b u ≤ 35 := by
  obtain ⟨⟨ha, hm, hb⟩, -, -⟩ := range_tables_bounded c b
  obtain ⟨hlo, hhi⟩ := uniformDraw_mem hm h0 h1
  unfold delayFor
  exact ⟨round_int_le (by push_cast; linarith),
    round_le_int (by push_cast; linarith)⟩

theorem cancelFor_bounds (c : Condition) (b : Bool) (u : ℚ)
    (h0 : 0 ≤ u) (h1 : u < 1) : 0 ≤ cancelFor c b u ∧ cancelFor c b u ≤ 15 := by
  obtain ⟨-, ⟨ha, hm, hb⟩, -⟩ := range_tables_bounded c b
  obtain ⟨hlo, hhi⟩ := uniformDraw_mem hm h0 h1
  unfold cancelFor
  exact ⟨round_int_le (by push_cast; linarith),
    round_le_int (by push_cast; linarith)⟩

theorem ridershipFor_bounds (c : Condition) (b : Bool) (u : ℚ)
    (h0 : 0 ≤ u) (h1 : u < 1) :
    50 ≤ ridershipFor c b u ∧ ridershipFor c b u ≤ 320 := by
  obtain ⟨-, -, ⟨ha, hm, hb⟩⟩ := range_tables_bounded c b
  obtain ⟨hlo, hhi⟩ := uniformDraw_mem hm h0 h1
  unfold ridershipFor
  exact ⟨round_int_le (by push_cast; linarith),
    round_le_int (by push_cast; linarith)⟩

/-- The metric-bound property asserted for every mode record. -/
def metricsBounded (mm : ModeMetrics) : Prop :=
  (1 ≤ mm.delay ∧ mm.delay ≤ 35) ∧ (0 ≤ mm.cancel ∧ mm.cancel ≤ 15) ∧
    (50 ≤ mm.ridership ∧ mm.ridership ≤ 320)

theorem modeLoop_cons (s : ℕ → ℚ) (c : Condition) (mode : String)
    (rest : List String) (k : ℕ) :
    modeLoop s c (mode :: rest) k =
      (⟨delayFor c (mode != "Underground") (s k),
          cancelFor c (mode != "Underground") (s (k + 1)),
          ridershipFor c (mode != "Underground") (s (k + 2))⟩ ::
        (modeLoop s c rest (k + 3)).1,
        (modeLoop s c rest (k + 3)).2) := rfl

theorem modeLoop_bounds (s : ℕ → ℚ) (c : Condition)
    (hs : ∀ i, 0 ≤ s i ∧ s i < 1) (ms : List String) :
    ∀ (k : ℕ) (mm : ModeMetrics), mm ∈ (modeLoop s c ms k).1 → metricsBounded mm := by
  induction ms with
  | nil => intro k mm h; simp [modeLoop] at h
  | cons mode rest ih =>
    intro k mm h
    rw [modeLoop_cons] at h
    rcases List.mem_cons.mp h with h | h
    · subst h
      exact ⟨delayFor_bounds c _ _ (hs k).1 (hs k).2,
        cancelFor_bounds c _ _ (hs (k + 1)).1 (hs (k + 1)).2,
        ridershipFor_bounds c _ _ (hs (k + 2)).1 (hs (k + 2)).2⟩
    · exact ih (k + 3) mm h

theorem simDay_metrics (s : ℕ → ℚ) (prev : ℚ) (k : ℕ) (d : ℕ × ℕ × ℕ) :
    ∃ c k', (simDay s prev k d).1.metrics = (modeLoop s c modes k').1 := by
  dsimp only [simDay]
  exact ⟨_, _, rfl⟩

theorem buildRows_metrics_bounded (s : ℕ → ℚ) (hs : ∀ i, 0 ≤ s i ∧ s i < 1)
    (dates : List (ℕ × ℕ × ℕ)) :
    ∀ (prev : ℚ) (k : ℕ) (r : Row), r ∈ buildRows s dates prev k →
      ∀ mm ∈ r.metrics, metricsBounded mm := by
  induction dates with
  | nil => intro prev k r hr; simp [buildRows] at hr
  | cons d ds ih =>
    intro prev k r hr
    rw [buildRows_cons] at hr
    rcases List.mem_cons.mp hr with h | h
    · subst h
      intro mm hmm
      obtain ⟨c, k', he⟩ := simDay_metrics s prev k d
      rw [he] at hmm
      exact modeLoop_bounds s c hs modes k' mm hmm
    · exact ih _ _ r h

/-- Claim C10: every emitted metric is a rounded integer within the fixed
global bounds — delay minutes in [1, 35], cancellation percent in [0, 15],
ridership thousands in [50, 320] — for every day and every mode. -/
theorem metrics_in_global_bounds (s : ℕ → ℚ) (hs : ∀ i, 0 ≤ s i ∧ s i < 1) :
    ∀ r ∈ generate s, ∀ mm ∈ r.metrics, metricsBounded mm := by
  intro r hr
  exact buildRows_metrics_bounded s hs dateRange 10 0 r hr

/-- Witness for C10 at the constant-zero stream. -/
theorem metrics_in_global_bounds_witness :
    (∀ i : ℕ, 0 ≤ (fun _ => (0 : ℚ)) i ∧ (fun _ => (0 : ℚ)) i < 1) ∧
      (∀ r ∈ generate (fun _ => (0 : ℚ)), ∀ mm ∈ r.metrics, metricsBounded mm) :=
  ⟨fun _ => ⟨le_refl 0, by norm_num⟩,
    metrics_in_global_bounds _ (fun _ => ⟨le_refl 0, by norm_num⟩)⟩

/-! ## Calendar lemmas for the date range -/

theorem daysInMonth_pos (y m : ℕ) : 1 ≤ daysInMonth y m := by
  unfold daysInMonth
  split_ifs <;> norm_num

theorem daysInMonth_le (y m : ℕ) : daysInMonth y m ≤ 31 := by
  unfold daysInMonth
  split_ifs <;> norm_num

theorem nextDay_valid {t : ℕ × ℕ × ℕ} (h : validDate t) :
    validDate (nextDay t) := by
  obtain ⟨y, m, d⟩ := t
  have h1 : 1 ≤ m := h.1
  have h2 : m ≤ 12 := h.2.1
  have h4 : d ≤ daysInMonth y m := h.2.2.2
  simp only [nextDay]
  split_ifs with hd hm
  · exact ⟨h1, h2, show 1 ≤ d + 1 by omega, show d + 1 ≤ daysInMonth y m by omega⟩
  · exact ⟨show 1 ≤ m + 1 by omega, show m + 1 ≤ 12 by omega, le_refl 1,
      daysInMonth_pos _ _⟩
  · exact ⟨le_refl 1, by norm_num, le_refl 1, daysInMonth_pos _ _⟩

theorem dateOrd_lt_nextDay {t : ℕ × ℕ × ℕ} (h : validDate t) :
    dateOrd t < dateOrd (nextDay t) := by
  obtain ⟨y, m, d⟩ := t
  have h1 : 1 ≤ m := h.1
  have h2 : m ≤ 12 := h.2.1
  have h3 : 1 ≤ d := h.2.2.1
  have h4 : d ≤ daysInMonth y m := h.2.2.2
  have h5 := daysInMonth_le y m
  simp only [nextDay]
  split_ifs <;> simp only [dateOrd] <;> omega

theorem dateList_cons (n : ℕ) (d : ℕ × ℕ × ℕ) :
    dateList (n + 1) d = d :: dateList n (nextDay d) := rfl

theorem dateList_ne_nil (n : ℕ) (d : ℕ × ℕ × ℕ) :
    ∃ t, dateList n d = d :: t := by
  cases n with
  | zero => exact ⟨[], rfl⟩
  | succ n => exact ⟨dateList n (nextDay d), rfl⟩

theorem dateList_length (n : ℕ) : ∀ d, (dateList n d).length = n + 1 := by
  induction n with
  | zero => intro d; rfl
  | succ n ih => intro d; rw [dateList_cons, List.length_cons, ih]

theorem dateList_head (n : ℕ) (d : ℕ × ℕ × ℕ) :
    (dateList n d).head? = some d := by
  obtain ⟨t, ht⟩ := dateList_ne_nil n d
  rw [ht, List.head?_cons]

theorem dateList_getLast (n : ℕ) : ∀ d, (dateList n d).getLast? = some (nextDay^[n] d) := by
  induction n with
  | zero => intro d; rfl
  | succ n ih =>
    intro d
    rw [dateList_cons]
    obtain ⟨t, ht⟩ := dateList_ne_nil n (nextDay d)
    rw [ht, List.getLast?_cons_cons, ← ht, ih, Function.iterate_succ_apply]

theorem dateList_chain_next (n : ℕ) : ∀ d,
    List.Chain' (fun a b => b = nextDay a) (dateList n d) := by
  induction n with
  | zero => intro d; exact List.chain'_singleton d
  | succ n ih =>
    intro d
    rw [dateList_cons]
    obtain ⟨t, ht⟩ := dateList_ne_nil n (nextDay d)
    rw [ht]
    exact List.chain'_cons.mpr ⟨rfl, ht ▸ ih (nextDay d)⟩

theorem dateList_chain_ord (n : ℕ) : ∀ d, validDate d →
    List.Chain' (fun a b => dateOrd a < dateOrd b) (dateList n d) := by
  induction n with
  | zero => intro d _; exact List.chain'_singleton d
  | succ n ih =>
    intro d hv
    rw [dateList_cons]
    obtain ⟨t, ht⟩ := dateList_ne_nil n (nextDay d)
    rw [ht]
    exact List.chain'_cons.mpr
      ⟨dateOrd_lt_nextDay hv, ht ▸ ih (nextDay d) (nextDay_valid hv)⟩

theorem dateList_valid (n : ℕ) : ∀ d, validDate d →
    ∀ x ∈ dateList n d, validDate x := by
  induction n with
  | zero =>
    intro d hv x hx
    rw [show dateList 0 d = [d] from rfl] at hx
    rw [List.mem_singleton.mp hx]
    exact hv
  | succ n ih =>
    intro d hv x hx
    rw [dateList_cons] at hx
    rcases List.mem_cons.mp hx with h | h
    · rw [h]; exact hv
    · exact ih (nextDay d) (nextDay_valid hv) x h

theorem startDate_valid : validDate (2019, 1, 1) := by
  refine ⟨le_refl 1, by norm_num, le_refl 1, ?_⟩
  norm_num [daysInMonth]

theorem dateRange_valid : ∀ d ∈ dateRange, validDate d :=
  dateList_valid (numDays - 1) (2019, 1, 1) startDate_valid

theorem dateRange_months : ∀ d ∈ dateRange, 1 ≤ d.2.1 ∧ d.2.1 ≤ 12 := by
  intro d hd
  obtain ⟨h1, h2, -, -⟩ := dateRange_valid d hd
  exact ⟨h1, h2⟩

set_option maxRecDepth 8000 in
theorem nextDay_iterate_range : nextDay^[2191] (2019, 1, 1) = (2024, 12, 31) := by
  have h1 : nextDay^[365] (2019, 1, 1) = (2020, 1, 1) := by decide
  have h2 : nextDay^[366] (2020, 1, 1) = (2021, 1, 1) := by decide
  have h3 : nextDay^[365] (2021, 1, 1) = (2022, 1, 1) := by decide
  have h4 : nextDay^[365] (2022, 1, 1) = (2023, 1, 1) := by decide
  have h5 : nextDay^[365] (2023, 1, 1) = (2024, 1, 1) := by decide
  have h6 : nextDay^[365] (2024, 1, 1) = (2024, 12, 31) := by decide
  have e1 : (2191 : ℕ) = 1826 + 365 := by norm_num
  rw [e1, Function.iterate_add_apply, h1]
  have e2 : (1826 : ℕ) = 1460 + 366 := by norm_num
  rw [e2, Function.iterate_add_apply, h2]
  have e3 : (1460 : ℕ) = 1095 + 365 := by norm_num
  rw [e3, Function.iterate_add_apply, h3]
  have e4 : (1095 : ℕ) = 730 + 365 := by norm_num
  rw [e4, Function.iterate_add_apply, h4]
  have e5 : (730 : ℕ) = 365 + 365 := by norm_num
  rw [e5, Function.iterate_add_apply, h5, h6]

theorem buildRows_dates (s : ℕ → ℚ) (dates : List (ℕ × ℕ × ℕ)) :
    ∀ (prev : ℚ) (k : ℕ), (buildRows s dates prev k).map Row.date = dates := by
  induction dates with
  | nil => intro prev k; rfl
  | cons d ds ih =>
    intro prev k
    rw [buildRows_cons, List.map_cons, ih]
    rfl

/-- Claim C8: the table has one row per calendar date from 2019-01-01
through 2024-12-31 (2192 rows), the dates are consecutive calendar days —
hence sorted ascending with no gaps and no duplicates — and the columns
are, in order, Date, Temperature, Precipitation, Wind Speed, Weather
Condition, then delays/cancellations/ridership for each of the six modes
in mode order: 5 + 6 × 3 = 23 columns. -/
theorem table_shape (s : ℕ → ℚ) :
    (generate s).map Row.date = dateRange ∧
    dateRange.length = 2192 ∧
    dateRange.head? = some (2019, 1, 1) ∧
    dateRange.getLast? = some (2024, 12, 31) ∧
    List.Chain' (fun a b => b = nextDay a) dateRange ∧
    dateRange.Pairwise (fun a b => dateOrd a < dateOrd b) ∧
    dateRange.Nodup ∧
    headerColumns =
      ["Date", "Temperature (°C)", "Precipitation (mm)", "Wind Speed (km/h)",
        "Weather Condition",
        "Underground Delays (min)", "Underground Cancellations (%)",
        "Underground Ridership (thousands)",
        "Bus Delays (min)", "Bus Cancellations (%)", "Bus Ridership (thousands)",
        "Overground Delays (min)", "Overground Cancellations (%)",
        "Overground Ridership (thousands)",
        "Tram Delays (min)", "Tram Cancellations (%)", "Tram Ridership (thousands)",
        "DLR Delays (min)", "DLR Cancellations (%)", "DLR Ridership (thousands)",
        "National Rail Delays (min)", "National Rail Cancellations (%)",
        "National Rail Ridership (thousands)"] ∧
    headerColumns.length = 23 := by
  have hpair : dateRange.Pairwise (fun a b => dateOrd a < dateOrd b) := by
    haveI : IsTrans (ℕ × ℕ × ℕ) (fun a b => dateOrd a < dateOrd b) :=
      ⟨fun _ _ _ h1 h2 => lt_trans h1 h2⟩
    exact List.chain'_iff_pairwise.mp
      (dateList_chain_ord (numDays - 1) (2019, 1, 1) startDate_valid)
  refine ⟨buildRows_dates s dateRange 10 0, ?_, ?_, ?_, ?_, hpair, ?_, ?_, ?_⟩
  · rw [dateRange, dateList_length]
    rfl
  · exact dateList_head (numDays - 1) (2019, 1, 1)
  · rw [dateRange, dateList_getLast,
      show numDays - 1 = 2191 from rfl, nextDay_iterate_range]
  · exact dateList_chain_next (numDays - 1) (2019, 1, 1)
  · exact (hpair.imp (fun h => fun he => by rw [he] at h; exact lt_irrefl _ h))
  · rfl
  · rfl

/-! ## Temperature series bound (claim C5) -/

theorem monthly_avg_temp_bounds (m : ℕ) (h1 : 1 ≤ m) (h2 : m ≤ 12) :
    5 ≤ monthly_avg_temp m ∧ monthly_avg_temp m ≤ 22 := by
  interval_cases m <;> norm_num [monthly_avg_temp]

theorem nextTemp_step (prev : ℚ) (m : ℕ) (u : ℚ) (h0 : 0 ≤ u) (h1 : u < 1)
    (hm1 : 1 ≤ m) (hm2 : m ≤ 12) (hp0 : 0 ≤ prev) (hp1 : prev ≤ 27) :
    0 ≤ nextTemp prev m (uniformDraw (-2) 2 u) ∧
      nextTemp prev m (uniformDraw (-2) 2 u) ≤ 27 ∧
      |nextTemp prev m (uniformDraw (-2) 2 u) - prev| ≤ 161 / 20 := by
  obtain ⟨hb1, hb2⟩ := monthly_avg_temp_bounds m hm1 hm2
  have hn1 : (-2 : ℚ) ≤ uniformDraw (-2) 2 u :=
    (uniformDraw_mem (by norm_num) h0 h1).1
  have hn2 : uniformDraw (-2) 2 u ≤ 2 :=
    (uniformDraw_mem (by norm_num) h0 h1).2
  have he := round1_err ((prev + uniformDraw (-2) 2 u) * 0.7 + monthly_avg_temp m * 0.3)
  rw [abs_le] at he
  have hnt : nextTemp prev m (uniformDraw (-2) 2 u) =
      round1 ((prev + uniformDraw (-2) 2 u) * 0.7 + monthly_avg_temp m * 0.3) := rfl
  rw [hnt]
  refine ⟨by nlinarith [he.1], by nlinarith [he.2], ?_⟩
  rw [abs_le]
  constructor
  · nlinarith [he.1]
  · nlinarith [he.2]

theorem buildRows_temps_chain (s : ℕ → ℚ) (hs : ∀ i, 0 ≤ s i ∧ s i < 1)
    (dates : List (ℕ × ℕ × ℕ)) :
    ∀ (prev : ℚ) (k : ℕ), 0 ≤ prev → prev ≤ 27 →
      (∀ d ∈ dates, 1 ≤ d.2.1 ∧ d.2.1 ≤ 12) →
      List.Chain (fun a b => |b - a| ≤ 161 / 20) prev
        ((buildRows s dates prev k).map Row.temperature) := by
  induction dates with
  | nil => intro prev k _ _ _; exact List.Chain.nil
  | cons d ds ih =>
    intro prev k hp0 hp1 hm
    rw [buildRows_cons, List.map_cons]
    have ht : (simDay s prev k d).1.temperature =
        nextTemp prev d.2.1 (uniformDraw (-2) 2 (s k)) := rfl
    have ht2 : (simDay s prev k d).2.1 =
        nextTemp prev d.2.1 (uniformDraw (-2) 2 (s k)) := rfl
    obtain ⟨ha, hb, hc⟩ := nextTemp_step prev d.2.1 (s k) (hs k).1 (hs k).2
      (hm d (List.mem_cons_self d ds)).1 (hm d (List.mem_cons_self d ds)).2 hp0 hp1
    refine List.Chain.cons ?_ ?_
    · rw [ht]; exact hc
    · rw [ht, ht2]
      exact ih _ _ (ht2 ▸ ha) (ht2 ▸ hb) (fun x hx => hm x (List.mem_cons_of_mem d hx))

theorem chain_imp_chain' {α : Type} {R : α → α → Prop} {a : α} {l : List α}
    (h : List.Chain R a l) : List.Chain' R l := by
  cases l with
  | nil => exact trivial
  | cons b t => exact (List.chain_cons.mp h).2

/-- Claim C5: for the whole six-year series, the absolute day-to-day
temperature change is bounded by the fixed constant
`0.7 * 2 + 0.3 * 22 + 0.05 = 8.05` determined by the noise range `[-2,2]`
and weight 0.7, the gap between the temperature invariant `[0, 27]` and
the monthly-mean table `[5, 22]` with weight 0.3, and the rounding error. -/
theorem temperature_day_to_day_bounded (s : ℕ → ℚ)
    (hs : ∀ i, 0 ≤ s i ∧ s i < 1) :
    List.Chain' (fun a b => |b - a| ≤ 161 / 20)
      ((generate s).map Row.temperature) := by
  apply chain_imp_chain'
  exact buildRows_temps_chain s hs dateRange 10 0 (by norm_num) (by norm_num)
    dateRange_months

/-- Witness for C5 at the constant-zero stream. -/
theorem temperature_day_to_day_bounded_witness :
    (∀ i : ℕ, 0 ≤ (fun _ => (0 : ℚ)) i ∧ (fun _ => (0 : ℚ)) i < 1) ∧
      List.Chain' (fun a b => |b - a| ≤ 161 / 20)
        ((generate (fun _ => (0 : ℚ))).map Row.temperature) :=
  ⟨fun _ => ⟨le_refl 0, by norm_num⟩,
    temperature_day_to_day_bounded _ (fun _ => ⟨le_refl 0, by norm_num⟩)⟩

end TransportSim
